import Mathlib

/-!
# Sony LiveView client: framing decoder and session lifecycle

A shallow embedding of `liveview/liveview.go`.

* Bytes are `Fin 256`; `uint16`/`uint32` header fields are `Nat` (always in range,
  being assembled from 2, 3 or 4 bytes).
* `liveview.reader` is a `*bufio.Reader`.  Its `Read` method is embedded after the Go
  standard library (`bufio.Reader.Read`): it hands out what is buffered, refills the
  buffer with a single read of the underlying source when it is empty, and may
  therefore return fewer bytes than the slice of the caller holds.  The underlying
  `io.Reader` (the HTTP response body) is a list of deliveries, one per read.
* A Go slice that may be `nil` is an `Option (List Byte)`.
* The network is an explicit value of type `Net` that is passed along.
* A nil pointer dereference is the outcome `Outcome.panicked`.
* `log.Println` / `log.Printf` output is not modelled.
-/

namespace liveview

abbrev Byte := Fin 256

/-- Error values: those of the byte source and the two framing errors of the package. -/
inductive Error where
  | EOF
  | other (code : Nat)
  | wrongCommonHeaderStartBytesError
  | wrongPayloadHeaderStartBytesError
  deriving DecidableEq, Repr

/-- The two `fmt.Errorf` wrappers built by `FetchFrame`. -/
inductive FetchError where
  | commonHeader (cause : Error)
  | payloadHeader (cause : Error)
  deriving DecidableEq, Repr

deriving instance DecidableEq for Except

/-- Result of a call that may dereference a nil pointer. -/
inductive Outcome (α : Type) where
  | returned (a : α)
  | panicked
  deriving DecidableEq, Repr

/-! ## The byte source -/

/-- One result `(n, err)` of the underlying `io.Reader`: the bytes it has ready and the
error it reports with them (`none` is `nil`). -/
structure Delivery where
  data : List Byte
  err : Option Error
  deriving DecidableEq, Repr

/-- The underlying `io.Reader` (an HTTP response body): the deliveries still to come.
Once they are used up every read reports `io.EOF`. -/
structure Source where
  pending : List Delivery
  deriving DecidableEq, Repr

structure SourceRead where
  data : List Byte
  err : Option Error
  rest : Source
  deriving DecidableEq, Repr

/-- The call `rd.Read(p)` with `len(p) = L`: at most `L` bytes of the next delivery;
what does not fit stays for the next read. -/
def Source.Read (s : Source) (L : Nat) : SourceRead :=
  match s.pending with
  | [] => ⟨[], some Error.EOF, s⟩
  | d :: ds =>
    if d.data.length ≤ L then ⟨d.data, d.err, ⟨ds⟩⟩
    else ⟨d.data.take L, none, ⟨⟨d.data.drop L, d.err⟩ :: ds⟩⟩

/-- State of a `bufio.Reader`: `buffered` is `b.buf[b.r:b.w]`, `size` is `len(b.buf)`,
`err` is the stored `b.err`, `rd` the underlying reader. -/
structure Reader where
  buffered : List Byte
  size : Nat
  err : Option Error
  rd : Source
  deriving DecidableEq, Repr

def defaultBufSize : Nat := 4096

/-- The constructor `bufio.NewReader(rd)`: an empty buffer of the default size. -/
def NewReader (rd : Source) : Reader := ⟨[], defaultBufSize, none, rd⟩

/-- Outcome of `p := make([]byte, L); n, err := reader.Read(p)`: the slice `p` after the
call, the count `n`, the error and the reader afterwards. -/
structure ReadResult where
  p : List Byte
  n : Nat
  err : Option Error
  reader : Reader
  deriving DecidableEq, Repr

/-- The zeroed slice `make([]byte, L)`. -/
def make (L : Nat) : List Byte := List.replicate L 0

/-- A fresh slice `make([]byte, L)` after `copy(p, src)`. -/
def copyInto (L : Nat) (src : List Byte) : List Byte :=
  src.take L ++ make (L - (src.take L).length)

/-- The refill step of `bufio.Reader.Read` ("One read"): `n, b.err = b.rd.Read(b.buf)`
followed by `b.w += n`, on an empty buffer. -/
def Reader.fill (b : Reader) : Reader :=
  let r := b.rd.Read b.size
  { b with buffered := r.data, err := r.err, rd := r.rest }

/-- The method `bufio.Reader.Read` of the Go standard library, called on a fresh slice
`p` of length `L`.  It follows the library code branch by branch:

* `len(p) == 0`: returns `0, nil` when bytes are buffered, else `0, b.readErr()`;
* empty buffer (`b.r == b.w`) and a stored error: returns `0, b.readErr()`;
* empty buffer and `len(p) >= len(b.buf)`: one read of the source straight into `p`;
* empty buffer otherwise: one read of the source into the buffer (`fill`), and `0` with
  the error of that read when it brought nothing;
* then `n = copy(p, b.buf[b.r:b.w])`, `b.r += n`, `return n, nil`.

`b.readErr()` returns the stored error and clears it.  In every branch `n` may be less
than `len(p)`. -/
def Reader.Read (b : Reader) (L : Nat) : ReadResult :=
  if L = 0 then
    match b.buffered with
    | _ :: _ => ⟨[], 0, none, b⟩
    | [] => ⟨[], 0, b.err, { b with err := none }⟩
  else
    match b.buffered with
    | [] =>
      match b.err with
      | some e => ⟨make L, 0, some e, { b with err := none }⟩
      | none =>
        if b.size ≤ L then
          let r := b.rd.Read L
          ⟨copyInto L r.data, r.data.length, r.err, { b with rd := r.rest }⟩
        else
          let f := b.fill
          match f.buffered with
          | [] => ⟨make L, 0, f.err, { f with err := none }⟩
          | x :: xs =>
            ⟨copyInto L (x :: xs), min L (x :: xs).length, none,
              { f with buffered := (x :: xs).drop L }⟩
    | x :: xs =>
      ⟨copyInto L (x :: xs), min L (x :: xs).length, none,
        { b with buffered := (x :: xs).drop L }⟩

/-! ## Data model -/

def commonHeaderStartByte : Byte := 0xff

def payloadHeaderStartCode : List Byte := [0x24, 0x35, 0x68, 0x79]

structure commonHeader where
  PayloadType : Byte
  sequenceNumber : Nat
  timeStamp : Nat
  deriving DecidableEq, Repr

structure payloadImageHeader where
  payloadDataSize : Nat
  paddingSize : Byte
  reserved : List Byte
  JpegData : Option (List Byte)
  deriving DecidableEq, Repr

/-- An `http.Response` as far as the client uses it: its body and whether the body has
been closed. -/
structure Response where
  Body : Source
  closed : Bool
  deriving DecidableEq, Repr

structure LiveView where
  commonHeader : commonHeader
  payloadHeader : payloadImageHeader
  reader : Option Reader
  response : Option Response
  url : String
  deriving DecidableEq, Repr

/-- The function `binary.BigEndian.Uint16` on a 2-byte slice. -/
def Uint16 (b : List Byte) : Nat :=
  2 ^ 8 * (b.getD 0 0).val + (b.getD 1 0).val

/-- The function `binary.BigEndian.Uint32` on a 4-byte slice. -/
def Uint32 (b : List Byte) : Nat :=
  2 ^ 24 * (b.getD 0 0).val + (2 ^ 16 * (b.getD 1 0).val + (2 ^ 8 * (b.getD 2 0).val
    + (b.getD 3 0).val))

/-! ## The frame decoder -/

/-! Field assignments on the client state. -/

def LiveView.setPayloadType (lv : LiveView) (v : Byte) : LiveView :=
  { lv with commonHeader := { lv.commonHeader with PayloadType := v } }

def LiveView.setSequenceNumber (lv : LiveView) (v : Nat) : LiveView :=
  { lv with commonHeader := { lv.commonHeader with sequenceNumber := v } }

def LiveView.setTimeStamp (lv : LiveView) (v : Nat) : LiveView :=
  { lv with commonHeader := { lv.commonHeader with timeStamp := v } }

def LiveView.setPayloadDataSize (lv : LiveView) (v : Nat) : LiveView :=
  { lv with payloadHeader := { lv.payloadHeader with payloadDataSize := v } }

def LiveView.setPaddingSize (lv : LiveView) (v : Byte) : LiveView :=
  { lv with payloadHeader := { lv.payloadHeader with paddingSize := v } }

def LiveView.setJpegData (lv : LiveView) (v : List Byte) : LiveView :=
  { lv with payloadHeader := { lv.payloadHeader with JpegData := some v } }

/-- The pattern `_, err = liveview.reader.Read(p); if err != nil { return err }`: on an
error the function returns it with the state `lv` reached so far, otherwise it goes on
with the slice `p` and the advanced reader.  The count `n` is dropped. -/
def ReadResult.andThen (r : ReadResult) (lv : LiveView)
    (k : List Byte → Reader → Option Error × LiveView × Reader) :
    Option Error × LiveView × Reader :=
  match r.err with
  | some err => (some err, lv, r.reader)
  | none => k r.p r.reader

/-- The method `readCommonHeader`, on the dereferenced reader `b`. -/
def readCommonHeader (lv : LiveView) (b : Reader) : Option Error × LiveView × Reader :=
  (b.Read 1).andThen lv fun commonHeader b =>
  if commonHeader.getD 0 0 ≠ commonHeaderStartByte then
    (some Error.wrongCommonHeaderStartBytesError, lv, b)
  else
  (b.Read 1).andThen lv fun payloadType b =>
  (b.Read 2).andThen (lv.setPayloadType (payloadType.getD 0 0)) fun sequenceNumber b =>
  (b.Read 4).andThen
    ((lv.setPayloadType (payloadType.getD 0 0)).setSequenceNumber (Uint16 sequenceNumber))
    fun timeStamp b =>
  (none,
    ((lv.setPayloadType (payloadType.getD 0 0)).setSequenceNumber
      (Uint16 sequenceNumber)).setTimeStamp (Uint32 timeStamp),
    b)

/-- The tail of `readPayloadHeader` after the `switch`: the padding read. -/
def readPadding (lv : LiveView) (b : Reader) : Option Error × LiveView × Reader :=
  if lv.payloadHeader.paddingSize ≠ 0 then
    (b.Read lv.payloadHeader.paddingSize.val).andThen lv fun _ b => (none, lv, b)
  else (none, lv, b)

/-- The `switch liveview.commonHeader.PayloadType` of `readPayloadHeader`, followed by
the padding read. -/
def readPayload (lv : LiveView) (b : Reader) : Option Error × LiveView × Reader :=
  if lv.commonHeader.PayloadType = 0x01 then
    (b.Read lv.payloadHeader.payloadDataSize).andThen lv fun jpegDataVal b =>
    readPadding (lv.setJpegData jpegDataVal) b
  else if lv.commonHeader.PayloadType = 0x02 then
    (b.Read 16).andThen lv fun _ b => readPadding lv b
  else readPadding lv b

/-- The method `readPayloadHeader`, on the dereferenced reader `b`, up to the `switch`. -/
def readPayloadHeader (lv : LiveView) (b : Reader) : Option Error × LiveView × Reader :=
  (b.Read 4).andThen lv fun startCode b =>
  if startCode ≠ payloadHeaderStartCode then
    (some Error.wrongPayloadHeaderStartBytesError, lv, b)
  else
  (b.Read 3).andThen lv fun payloadDataSize b =>
  (b.Read 1).andThen (lv.setPayloadDataSize (Uint32 ((0x00 : Byte) :: payloadDataSize)))
    fun paddingSize b =>
  (b.Read 120).andThen
    ((lv.setPayloadDataSize (Uint32 ((0x00 : Byte) :: payloadDataSize))).setPaddingSize
      (paddingSize.getD 0 0))
    fun _ b =>
  readPayload
    ((lv.setPayloadDataSize (Uint32 ((0x00 : Byte) :: payloadDataSize))).setPaddingSize
      (paddingSize.getD 0 0))
    b

/-- The method `FetchFrame`: `Except.error e` is the Go result `(nil, e)`, `Except.ok d` is
`(d, nil)`.  A nil `reader` panics at the first read. -/
def FetchFrame (lv : LiveView) :
    Outcome (Except FetchError (Option (List Byte)) × LiveView) :=
  match lv.reader with
  | none => Outcome.panicked
  | some b =>
    match readCommonHeader lv b with
    | (some err, lv, b) =>
      Outcome.returned (Except.error (FetchError.commonHeader err), { lv with reader := some b })
    | (none, lv, b) =>
      match readPayloadHeader lv b with
      | (some err, lv, b) =>
        Outcome.returned
          (Except.error (FetchError.payloadHeader err), { lv with reader := some b })
      | (none, lv, b) =>
        Outcome.returned (Except.ok lv.payloadHeader.JpegData, { lv with reader := some b })

/-- What a returned `FetchFrame` call handed to its caller (`none` after a panic). -/
def fetched (o : Outcome (Except FetchError (Option (List Byte)) × LiveView)) :
    Option (Except FetchError (Option (List Byte))) :=
  match o with
  | Outcome.returned (r, _) => some r
  | Outcome.panicked => none

/-- The client state a `FetchFrame` call leaves behind (`lv` itself after a panic). -/
def stateAfter (lv : LiveView)
    (o : Outcome (Except FetchError (Option (List Byte)) × LiveView)) : LiveView :=
  match o with
  | Outcome.returned (_, lv1) => lv1
  | Outcome.panicked => lv

/-! ## Control channel and session lifecycle -/

/-- An HTTP request as sent by `http.Post` / `http.Get`. -/
structure Request where
  verb : String
  url : String
  contentType : String
  body : String
  deriving DecidableEq, Repr

/-- The network: the requests sent so far (oldest first) and the outcomes of the calls
still to come.  A `http.Post` beyond the scripted ones succeeds, a `http.Get` beyond the
scripted ones fails. -/
structure Net where
  sent : List Request
  postResults : List (Option Error)
  getResults : List (Except Error Source)

/-- The call `http.Post(url, contentType, body)`; the response itself is dropped by the caller. -/
def httpPost (w : Net) (url contentType body : String) : Option Error × Net :=
  let sent := w.sent ++ [⟨"POST", url, contentType, body⟩]
  match w.postResults with
  | [] => (none, { w with sent := sent })
  | r :: rs => (r, { w with sent := sent, postResults := rs })

/-- The call `http.Get(url)`. -/
def httpGet (w : Net) (url : String) : Except Error Response × Net :=
  let sent := w.sent ++ [⟨"GET", url, "", ""⟩]
  match w.getResults with
  | [] => (Except.error (Error.other 0), { w with sent := sent })
  | Except.error e :: rs => (Except.error e, { w with sent := sent, getResults := rs })
  | Except.ok body :: rs => (Except.ok ⟨body, false⟩, { w with sent := sent, getResults := rs })

/-- The function `strings.TrimRight(s, cutset)`: drops every trailing character that
occurs in `cutset`. -/
def TrimRight (s cutset : String) : String :=
  ⟨(s.data.reverse.dropWhile (fun c => cutset.data.contains c)).reverse⟩

/-- The request body built inside `postReq`: the three string pieces of the source,
with `method` pasted between the first two. -/
def postReqBody (method : String) : String :=
  "\x7b\"method\":" ++ method ++ ", \"params\": [], \"id\": 1, \"version\": \"1.0\"\x7d"

def postReq (lv : LiveView) (w : Net) (method : String) : Option Error × Net :=
  httpPost w (lv.url ++ "/sony/camera") "application/json" (postReqBody method)

def startRemoteControl (lv : LiveView) (w : Net) : Option Error × Net :=
  postReq lv w "startRecMode"

def startLiveview (lv : LiveView) (w : Net) : Option Error × Net :=
  postReq lv w "startLiveview"

/-- The method `stopLiveview`: a failure is only logged. -/
def stopLiveview (lv : LiveView) (w : Net) : Net :=
  (postReq lv w "stopLiveview").2

/-- The zero value `LiveView{}`. -/
def zeroLiveView : LiveView :=
  ⟨⟨0, 0, 0⟩, ⟨0, 0, make 120, none⟩, none, none, ""⟩

def Start (liveviewURL : String) (w : Net) : (LiveView × Option Error) × Net :=
  let result : LiveView :=
    { commonHeader := ⟨0, 0, 0⟩
      payloadHeader := ⟨0, 0, make 120, none⟩
      reader := none
      response := none
      url := TrimRight liveviewURL "/" }
  match startRemoteControl result w with
  | (some err, w) => ((zeroLiveView, some err), w)
  | (none, w) =>
    match startLiveview result w with
    | (some err, w) => ((zeroLiveView, some err), w)
    | (none, w) => ((result, none), w)

/-- The method `CloseResponse`: `liveview.response.Body.Close()` dereferences `liveview.response`. -/
def CloseResponse (lv : LiveView) : Outcome LiveView :=
  match lv.response with
  | none => Outcome.panicked
  | some r => Outcome.returned { lv with response := some { r with closed := true } }

def Stop (lv : LiveView) (w : Net) : Outcome (LiveView × Net) :=
  let w := stopLiveview lv w
  match CloseResponse lv with
  | Outcome.panicked => Outcome.panicked
  | Outcome.returned lv => Outcome.returned (lv, w)

def Connect (lv : LiveView) (w : Net) : Option Error × LiveView × Net :=
  match httpGet w (lv.url ++ "/liveview/liveviewstream") with
  | (Except.error err, w) => (some err, lv, w)
  | (Except.ok response, w) =>
    (none, { lv with response := some response, reader := some (NewReader response.Body) }, w)

/-! ## The wire format, as the protocol describes it -/

/-- The 3-byte big-endian size field for the payload size `n`. -/
def size24 (n : Nat) : List Byte :=
  [Fin.ofNat (n / 2 ^ 16), Fin.ofNat (n / 2 ^ 8), Fin.ofNat n]

/-- One unit of the stream:
`[0xFF][payloadType:1][seq:2][ts:4][startMarker:4][size:3][paddingSize:1][reserved:120][payload][padding]`. -/
def streamUnit (ty : Byte) (seq ts size : List Byte) (p : Byte)
    (reserved payload padding : List Byte) : List Byte :=
  [commonHeaderStartByte] ++ ([ty] ++ (seq ++ (ts ++ (payloadHeaderStartCode ++
    (size ++ ([p] ++ (reserved ++ (payload ++ padding))))))))

/-- An image unit (payload type 0x01) whose size field declares the length of `body`. -/
def imageUnit (seq ts : List Byte) (p : Byte) (reserved body padding : List Byte) :
    List Byte :=
  streamUnit 0x01 seq ts (size24 body.length) p reserved body padding

/-- The reader that serves the next read: the reader itself while bytes are buffered,
and on an empty buffer the reader after one refill from the source. -/
def Reader.settled (b : Reader) : Reader :=
  match b.buffered with
  | [] => b.fill
  | _ :: _ => b

/-- The reader has exactly the bytes `s` at hand (buffered, or brought in by
the one refill an empty buffer triggers) and no read error is stored. -/
def Reader.holds (b : Reader) (s : List Byte) : Prop :=
  b.err = none ∧ (b.buffered = [] → 1 < b.size) ∧ b.settled.buffered = s ∧
    b.settled.err = none

/-! ## Concrete clients and streams -/

/-- A client as `Start` returns it, after a `Connect` whose response body delivers
`deliveries`. -/
def connected (frame : Option (List Byte)) (deliveries : List Delivery) : LiveView :=
  { commonHeader := ⟨0, 0, 0⟩
    payloadHeader := ⟨0, 0, make 120, frame⟩
    reader := some (NewReader ⟨deliveries⟩)
    response := some ⟨⟨deliveries⟩, false⟩
    url := "http://192.168.122.1:8080" }

/-- Size 5, body `[1,2,3,4,5]`, padding size 2, padding `[0,0]`. -/
def exImage : List Byte :=
  imageUnit [0, 1] [0, 0, 0, 10] 2 (make 120) [1, 2, 3, 4, 5] [0, 0]

/-- A second image unit: size 3, body `[7,8,9]`, no padding. -/
def exImage2 : List Byte :=
  imageUnit [0, 2] [0, 0, 0, 20] 0 (make 120) [7, 8, 9] []

/-- A frame-info unit (payload type 0x02) with 16 info bytes and padding size 1. -/
def exInfo : List Byte :=
  streamUnit 0x02 [0, 3] [0, 0, 0, 30] [0, 0, 16] 1 (make 120) (List.replicate 16 0xAB) [0]

/-- A unit of the unknown payload type 0x03, without payload and padding size 1. -/
def exUnknown : List Byte :=
  streamUnit 0x03 [0, 4] [0, 0, 0, 40] [0, 0, 0] 1 (make 120) [] [0]

/-- An image unit declaring size 5 of which only 3 body bytes are present. -/
def exTruncated : List Byte :=
  streamUnit 0x01 [0, 5] [0, 0, 0, 50] [0, 0, 5] 0 (make 120) [1, 2, 3] []

instance (b : Reader) (s : List Byte) : Decidable (b.holds s) := by
  unfold Reader.holds
  infer_instance

/-- The request body as the protocol describes it: an object whose member `method` is
the method name in double quotes, followed by the members `params` (an empty array),
`id` (1) and `version` (the string 1.0), with no blanks. -/
def specBody (name : String) : String :=
  "\x7b\"method\":\"" ++ name ++ "\",\"params\":[],\"id\":1,\"version\":\"1.0\"\x7d"

/-- A network on which every control command succeeds and the next stream request is
answered with a body that delivers `deliveries`. -/
def exNet (deliveries : List Delivery) : Net :=
  ⟨[], [], [Except.ok ⟨deliveries⟩]⟩

/-- A client that has not decoded anything yet. -/
def exClean : LiveView :=
  { commonHeader := ⟨0, 0, 0⟩
    payloadHeader := ⟨0, 0, make 120, none⟩
    reader := none
    response := none
    url := "http://192.168.122.1:8080" }

/-- The same client after it decoded the image unit `exImage` on an earlier connection:
it differs from `exClean` in the stored header fields and the stored frame bytes only. -/
def exUsed : LiveView :=
  { exClean with
    commonHeader := ⟨1, 1, 10⟩
    payloadHeader := ⟨5, 2, make 120, some [1, 2, 3, 4, 5]⟩ }


/-- One image unit larger than the 4096-byte buffer: size 5000, every body byte 0x01,
no padding (5136 bytes in all). -/
def exBig : List Byte :=
  streamUnit 0x01 [0, 6] [0, 0, 0, 60] (size24 5000) 0 (make 120) (List.replicate 5000 0x01) []

/-- A stream that starts with the complete common header `FF 01 00 01 00 00 00 24` (payload
type 0x01, sequence number 1, timestamp 0x24), followed by the 4 bytes `35 68 79 00`,
which are not the payload start code, and by 125 further bytes. -/
def exShifted : List Byte :=
  [0xFF, 0x01, 0x00, 0x01, 0x00, 0x00, 0x00, 0x24, 0x35, 0x68, 0x79, 0x00, 0x00, 0x02, 0x00]
    ++ make 120 ++ [0xAA, 0xBB]

set_option maxRecDepth 100000

/-! ## Reading from the buffer -/

theorem copyInto_append (xs ys : List Byte) (L : Nat) (hL : xs.length = L) :
    copyInto L (xs ++ ys) = xs := by
  subst hL
  simp [copyInto, make]

/-- A read of `xs.length` bytes from a buffer that starts with `xs` returns `xs` in full
and leaves the rest buffered. -/
theorem Read_mk (xs ys : List Byte) (sz : Nat) (rd : Source) (L : Nat) (hL : xs.length = L) :
    Reader.Read ⟨xs ++ ys, sz, none, rd⟩ L = ⟨xs, L, none, ⟨ys, sz, none, rd⟩⟩ := by
  subst hL
  cases xs with
  | nil =>
    cases ys <;> simp [Reader.Read]
  | cons x xs =>
    have h := copyInto_append (x :: xs) ys (xs.length + 1) rfl
    simp only [List.cons_append] at h
    simp [Reader.Read, h]

/-- On an empty buffer the first one-byte read is served by the refilled reader. -/
theorem Read_one_settled (b : Reader) (he : b.err = none) (hsz : b.buffered = [] → 1 < b.size)
    (hne : b.settled.buffered ≠ []) : b.Read 1 = b.settled.Read 1 := by
  cases hbuf : b.buffered with
  | nil =>
    have hs : b.settled = b.fill := by simp [Reader.settled, hbuf]
    rw [hs] at hne ⊢
    have h1 : ¬ b.size ≤ 1 := by have := hsz hbuf; omega
    cases hf : b.fill.buffered with
    | nil => exact absurd hf hne
    | cons x xs => simp [Reader.Read, hbuf, he, h1, hf]
  | cons x xs =>
    have hs : b.settled = b := by simp [Reader.settled, hbuf]
    rw [hs]

theorem settled_eq_of_holds (b : Reader) (s : List Byte) (hb : b.holds s) :
    b.settled = ⟨s, b.settled.size, none, b.settled.rd⟩ := by
  obtain ⟨_, _, h3, h4⟩ := hb
  cases hs : b.settled with
  | mk bu sz e rd =>
    rw [hs] at h3 h4
    simp only at h3 h4
    subst h3 h4
    rfl

theorem readCommonHeader_holds (lv : LiveView) (b : Reader) (s : List Byte) (hs : s ≠ [])
    (hb : b.holds s) :
    readCommonHeader lv b = readCommonHeader lv ⟨s, b.settled.size, none, b.settled.rd⟩ := by
  have h := settled_eq_of_holds b s hb
  obtain ⟨h1, h2, h3, _⟩ := hb
  have hr : b.Read 1 = b.settled.Read 1 := Read_one_settled b h1 h2 (by rw [h3]; exact hs)
  rw [← h]
  unfold readCommonHeader
  rw [hr]

/-! ## The two header parsers on a buffer that holds the fields -/

theorem andThen_ok (p : List Byte) (n : Nat) (b : Reader) (lv : LiveView)
    (k : List Byte → Reader → Option Error × LiveView × Reader) :
    ReadResult.andThen ⟨p, n, none, b⟩ lv k = k p b := rfl

theorem readCommonHeader_mk (lv : LiveView) (ty : Byte) (seq ts rest : List Byte) (sz : Nat)
    (rd : Source) (hseq : seq.length = 2) (hts : ts.length = 4) :
    readCommonHeader lv
        ⟨[commonHeaderStartByte] ++ ([ty] ++ (seq ++ (ts ++ rest))), sz, none, rd⟩
      = (none, { lv with commonHeader := ⟨ty, Uint16 seq, Uint32 ts⟩ },
          ⟨rest, sz, none, rd⟩) := by
  unfold readCommonHeader
  rw [Read_mk [commonHeaderStartByte] _ sz rd 1 rfl, andThen_ok]
  rw [if_neg (by simp)]
  rw [Read_mk [ty] _ sz rd 1 rfl, andThen_ok]
  rw [Read_mk seq _ sz rd 2 hseq, andThen_ok]
  rw [Read_mk ts _ sz rd 4 hts, andThen_ok]
  rfl

theorem readCommonHeader_wrongStart (lv : LiveView) (x : Byte) (rest : List Byte) (sz : Nat)
    (rd : Source) (hx : x ≠ commonHeaderStartByte) :
    readCommonHeader lv ⟨[x] ++ rest, sz, none, rd⟩
      = (some Error.wrongCommonHeaderStartBytesError, lv, ⟨rest, sz, none, rd⟩) := by
  unfold readCommonHeader
  rw [Read_mk [x] _ sz rd 1 rfl, andThen_ok]
  rw [if_pos (by simpa using hx)]

theorem readPadding_mk (lv : LiveView) (padding rest : List Byte) (sz : Nat) (rd : Source)
    (hp : padding.length = lv.payloadHeader.paddingSize.val) :
    readPadding lv ⟨padding ++ rest, sz, none, rd⟩ = (none, lv, ⟨rest, sz, none, rd⟩) := by
  unfold readPadding
  by_cases h0 : lv.payloadHeader.paddingSize = 0
  · have : padding = [] := by
      apply List.eq_nil_of_length_eq_zero
      rw [hp, h0]; rfl
    subst this
    rw [if_neg (by simpa using h0)]
    rfl
  · rw [if_pos h0, Read_mk padding rest sz rd _ hp, andThen_ok]

theorem readPayloadHeader_wrongMarker (lv : LiveView) (m rest : List Byte) (sz : Nat)
    (rd : Source) (hm : m.length = 4) (hne : m ≠ payloadHeaderStartCode) :
    readPayloadHeader lv ⟨m ++ rest, sz, none, rd⟩
      = (some Error.wrongPayloadHeaderStartBytesError, lv, ⟨rest, sz, none, rd⟩) := by
  unfold readPayloadHeader
  rw [Read_mk m _ sz rd 4 hm, andThen_ok]
  rw [if_pos hne]

/-- The fixed part of the payload header: marker, size, padding size, reserved bytes. -/
theorem readPayloadHeader_fixed (lv : LiveView) (size reserved rest : List Byte)
    (p : Byte) (sz : Nat) (rd : Source) (hsize : size.length = 3)
    (hres : reserved.length = 120) :
    readPayloadHeader lv
        ⟨payloadHeaderStartCode ++ (size ++ ([p] ++ (reserved ++ rest))), sz, none, rd⟩
      = readPayload
          ((lv.setPayloadDataSize (Uint32 ((0 : Byte) :: size))).setPaddingSize p)
          ⟨rest, sz, none, rd⟩ := by
  unfold readPayloadHeader
  rw [Read_mk payloadHeaderStartCode _ sz rd 4 rfl, andThen_ok]
  rw [if_neg (by simp)]
  rw [Read_mk size _ sz rd 3 hsize, andThen_ok]
  rw [Read_mk [p] _ sz rd 1 rfl, andThen_ok]
  rw [Read_mk reserved _ sz rd 120 hres, andThen_ok]
  rfl

theorem readPayload_image (lv : LiveView) (body padding rest : List Byte) (sz : Nat)
    (rd : Source) (hty : lv.commonHeader.PayloadType = 0x01)
    (hbody : body.length = lv.payloadHeader.payloadDataSize)
    (hpad : padding.length = lv.payloadHeader.paddingSize.val) :
    readPayload lv ⟨body ++ (padding ++ rest), sz, none, rd⟩
      = (none, lv.setJpegData body, ⟨rest, sz, none, rd⟩) := by
  unfold readPayload
  rw [if_pos hty, Read_mk body _ sz rd _ hbody, andThen_ok]
  exact readPadding_mk _ padding rest sz rd hpad

theorem readPayload_info (lv : LiveView) (info padding rest : List Byte) (sz : Nat)
    (rd : Source) (hty : lv.commonHeader.PayloadType = 0x02) (hinfo : info.length = 16)
    (hpad : padding.length = lv.payloadHeader.paddingSize.val) :
    readPayload lv ⟨info ++ (padding ++ rest), sz, none, rd⟩
      = (none, lv, ⟨rest, sz, none, rd⟩) := by
  unfold readPayload
  have h1 : ¬ lv.commonHeader.PayloadType = 0x01 := by rw [hty]; decide
  rw [if_neg h1, if_pos hty, Read_mk info _ sz rd 16 hinfo, andThen_ok]
  exact readPadding_mk _ padding rest sz rd hpad

theorem readPayload_other (lv : LiveView) (padding rest : List Byte) (sz : Nat)
    (rd : Source) (h1 : lv.commonHeader.PayloadType ≠ 0x01)
    (h2 : lv.commonHeader.PayloadType ≠ 0x02)
    (hpad : padding.length = lv.payloadHeader.paddingSize.val) :
    readPayload lv ⟨padding ++ rest, sz, none, rd⟩ = (none, lv, ⟨rest, sz, none, rd⟩) := by
  unfold readPayload
  rw [if_neg h1, if_neg h2]
  exact readPadding_mk _ padding rest sz rd hpad

theorem Uint32_size24 (n : Nat) (hn : n < 2 ^ 24) : Uint32 ((0 : Byte) :: size24 n) = n := by
  simp [Uint32, size24, Fin.ofNat]
  omega

/-! ## `FetchFrame` from the results of its two steps -/

theorem FetchFrame_ok (lv lv1 lv2 : LiveView) (b b1 b2 : Reader) (hr : lv.reader = some b)
    (h1 : readCommonHeader lv b = (none, lv1, b1))
    (h2 : readPayloadHeader lv1 b1 = (none, lv2, b2)) :
    FetchFrame lv
      = Outcome.returned (Except.ok lv2.payloadHeader.JpegData, { lv2 with reader := some b2 }) := by
  simp [FetchFrame, hr, h1, h2]

theorem FetchFrame_commonErr (lv lv1 : LiveView) (b b1 : Reader) (e : Error)
    (hr : lv.reader = some b) (h1 : readCommonHeader lv b = (some e, lv1, b1)) :
    FetchFrame lv
      = Outcome.returned
          (Except.error (FetchError.commonHeader e), { lv1 with reader := some b1 }) := by
  simp [FetchFrame, hr, h1]

theorem FetchFrame_payloadErr (lv lv1 lv2 : LiveView) (b b1 b2 : Reader) (e : Error)
    (hr : lv.reader = some b) (h1 : readCommonHeader lv b = (none, lv1, b1))
    (h2 : readPayloadHeader lv1 b1 = (some e, lv2, b2)) :
    FetchFrame lv
      = Outcome.returned
          (Except.error (FetchError.payloadHeader e), { lv2 with reader := some b2 }) := by
  simp [FetchFrame, hr, h1, h2]


/-! ## `FetchFrame` on a reader that holds one unit -/

theorem streamUnit_append (ty : Byte) (seq ts size : List Byte) (p : Byte)
    (reserved payload padding rest : List Byte) :
    streamUnit ty seq ts size p reserved payload padding ++ rest
      = [commonHeaderStartByte] ++ ([ty] ++ (seq ++ (ts ++ (payloadHeaderStartCode ++
          (size ++ ([p] ++ (reserved ++ (payload ++ (padding ++ rest))))))))) := by
  simp [streamUnit]

theorem streamUnit_length (ty : Byte) (seq ts size : List Byte) (p : Byte)
    (reserved payload padding : List Byte) (hseq : seq.length = 2) (hts : ts.length = 4)
    (hsize : size.length = 3) (hres : reserved.length = 120) :
    (streamUnit ty seq ts size p reserved payload padding).length
      = 8 + 128 + payload.length + padding.length := by
  simp [streamUnit, payloadHeaderStartCode, hseq, hts, hsize, hres]
  omega

theorem holds_buffered (b : Reader) (s : List Byte) (he : b.err = none) (hs : s ≠ []) :
    ({ b with buffered := s } : Reader).holds s := by
  cases s with
  | nil => exact absurd rfl hs
  | cons x xs =>
    unfold Reader.holds
    exact ⟨he, fun h => List.noConfusion h, rfl, he⟩

theorem settled_buffered (b : Reader) (s : List Byte) (hs : s ≠ []) :
    ({ b with buffered := s } : Reader).settled = { b with buffered := s } := by
  cases s with
  | nil => exact absurd rfl hs
  | cons x xs => rfl

/-- Both headers of a unit, read from a reader that holds the unit: the common header
fields are stored and the payload of the unit is what is left to read. -/
theorem headers_holds (lv : LiveView) (b : Reader) (ty : Byte) (seq ts size : List Byte)
    (p : Byte) (reserved tail : List Byte) (hseq : seq.length = 2) (hts : ts.length = 4)
    (hsize : size.length = 3) (hres : reserved.length = 120)
    (hb : b.holds ([commonHeaderStartByte] ++ ([ty] ++ (seq ++ (ts ++
      (payloadHeaderStartCode ++ (size ++ ([p] ++ (reserved ++ tail))))))))) :
    readCommonHeader lv b
        = (none, { lv with commonHeader := ⟨ty, Uint16 seq, Uint32 ts⟩ },
            ⟨payloadHeaderStartCode ++ (size ++ ([p] ++ (reserved ++ tail))),
              b.settled.size, none, b.settled.rd⟩) ∧
      readPayloadHeader { lv with commonHeader := ⟨ty, Uint16 seq, Uint32 ts⟩ }
          ⟨payloadHeaderStartCode ++ (size ++ ([p] ++ (reserved ++ tail))),
            b.settled.size, none, b.settled.rd⟩
        = readPayload
            { lv with
              commonHeader := ⟨ty, Uint16 seq, Uint32 ts⟩
              payloadHeader :=
                ⟨Uint32 ((0 : Byte) :: size), p, lv.payloadHeader.reserved,
                  lv.payloadHeader.JpegData⟩ }
            ⟨tail, b.settled.size, none, b.settled.rd⟩ := by
  constructor
  · rw [readCommonHeader_holds lv b _ (by simp) hb]
    exact readCommonHeader_mk lv ty seq ts _ _ _ hseq hts
  · exact readPayloadHeader_fixed _ size reserved tail p _ _ hsize hres

theorem with_buffered_of_holds (b : Reader) (s rest : List Byte) (hb : b.holds s) :
    (⟨rest, b.settled.size, none, b.settled.rd⟩ : Reader) = { b.settled with buffered := rest } := by
  have h := hb.2.2.2
  cases hs : b.settled with
  | mk bu sz e rd =>
    rw [hs] at h
    simp only at h
    subst h
    rfl

theorem FetchFrame_image_unit (lv : LiveView) (b : Reader) (seq ts size : List Byte)
    (p : Byte) (reserved body padding rest : List Byte) (hr : lv.reader = some b)
    (hseq : seq.length = 2) (hts : ts.length = 4) (hsize : size.length = 3)
    (hres : reserved.length = 120) (hbody : body.length = Uint32 ((0 : Byte) :: size))
    (hpad : padding.length = p.val)
    (hb : b.holds (streamUnit 0x01 seq ts size p reserved body padding ++ rest)) :
    FetchFrame lv = Outcome.returned (Except.ok (some body),
      { lv with
        commonHeader := ⟨0x01, Uint16 seq, Uint32 ts⟩
        payloadHeader := ⟨Uint32 ((0 : Byte) :: size), p, lv.payloadHeader.reserved, some body⟩
        reader := some { b.settled with buffered := rest } }) := by
  have hw := with_buffered_of_holds b _ rest hb
  rw [streamUnit_append] at hb
  obtain ⟨h1, h2⟩ := headers_holds lv b 0x01 seq ts size p reserved _ hseq hts hsize hres hb
  rw [readPayload_image _ body padding rest _ _ rfl hbody hpad] at h2
  rw [FetchFrame_ok lv _ _ b _ _ hr h1 h2, ← hw]
  rfl

theorem FetchFrame_info_unit (lv : LiveView) (b : Reader) (seq ts size : List Byte)
    (p : Byte) (reserved info padding rest : List Byte) (hr : lv.reader = some b)
    (hseq : seq.length = 2) (hts : ts.length = 4) (hsize : size.length = 3)
    (hres : reserved.length = 120) (hinfo : info.length = 16)
    (hpad : padding.length = p.val)
    (hb : b.holds (streamUnit 0x02 seq ts size p reserved info padding ++ rest)) :
    FetchFrame lv = Outcome.returned (Except.ok lv.payloadHeader.JpegData,
      { lv with
        commonHeader := ⟨0x02, Uint16 seq, Uint32 ts⟩
        payloadHeader :=
          ⟨Uint32 ((0 : Byte) :: size), p, lv.payloadHeader.reserved, lv.payloadHeader.JpegData⟩
        reader := some { b.settled with buffered := rest } }) := by
  have hw := with_buffered_of_holds b _ rest hb
  rw [streamUnit_append] at hb
  obtain ⟨h1, h2⟩ := headers_holds lv b 0x02 seq ts size p reserved _ hseq hts hsize hres hb
  rw [readPayload_info _ info padding rest _ _ rfl hinfo hpad] at h2
  rw [FetchFrame_ok lv _ _ b _ _ hr h1 h2, ← hw]

theorem FetchFrame_other_unit (lv : LiveView) (b : Reader) (ty : Byte)
    (seq ts size : List Byte) (p : Byte) (reserved padding rest : List Byte)
    (hr : lv.reader = some b) (h01 : ty ≠ 0x01) (h02 : ty ≠ 0x02)
    (hseq : seq.length = 2) (hts : ts.length = 4) (hsize : size.length = 3)
    (hres : reserved.length = 120) (hpad : padding.length = p.val)
    (hb : b.holds (streamUnit ty seq ts size p reserved [] padding ++ rest)) :
    FetchFrame lv = Outcome.returned (Except.ok lv.payloadHeader.JpegData,
      { lv with
        commonHeader := ⟨ty, Uint16 seq, Uint32 ts⟩
        payloadHeader :=
          ⟨Uint32 ((0 : Byte) :: size), p, lv.payloadHeader.reserved, lv.payloadHeader.JpegData⟩
        reader := some { b.settled with buffered := rest } }) := by
  have hw := with_buffered_of_holds b _ rest hb
  rw [streamUnit_append] at hb
  obtain ⟨h1, h2⟩ := headers_holds lv b ty seq ts size p reserved _ hseq hts hsize hres hb
  rw [List.nil_append, readPayload_other _ padding rest _ _ h01 h02 hpad] at h2
  rw [FetchFrame_ok lv _ _ b _ _ hr h1 h2, ← hw]


/-! ## The decoder when every read is served in full -/

/-- Image units served in full: when the reader holds an image unit (payload type 0x01) whose three size bytes
encode `n < 2^24`, followed by `n` body bytes and `p` padding bytes, `FetchFrame` returns
no error and returns exactly the body; `n` is the size field read big-endian with a zero
high byte, and it is the payload size the client stores. -/
theorem FetchFrame_returns_image_body (lv : LiveView) (b : Reader) (n : Nat)
    (seq ts reserved body padding rest : List Byte) (p : Byte)
    (hr : lv.reader = some b) (hn : n < 2 ^ 24) (hseq : seq.length = 2)
    (hts : ts.length = 4) (hres : reserved.length = 120) (hbody : body.length = n)
    (hpad : padding.length = p.val)
    (hb : b.holds (streamUnit 0x01 seq ts (size24 n) p reserved body padding ++ rest)) :
    fetched (FetchFrame lv) = some (Except.ok (some body)) ∧
      Uint32 ((0 : Byte) :: size24 n) = n ∧
      (stateAfter lv (FetchFrame lv)).payloadHeader.payloadDataSize = body.length := by
  have hu := Uint32_size24 n hn
  have h := FetchFrame_image_unit lv b seq ts (size24 n) p reserved body padding rest hr
    hseq hts rfl hres (by rw [hu, hbody]) hpad hb
  rw [h]
  exact ⟨rfl, hu, by rw [hbody]; exact hu⟩

theorem FetchFrame_returns_image_body_witness :
    (NewReader ⟨[⟨exImage, none⟩]⟩).holds (exImage ++ []) ∧
      fetched (FetchFrame (connected none [⟨exImage, none⟩]))
        = some (Except.ok (some [1, 2, 3, 4, 5])) :=
  ⟨by decide,
    (FetchFrame_returns_image_body (connected none [⟨exImage, none⟩])
      (NewReader ⟨[⟨exImage, none⟩]⟩) 5 [0, 1] [0, 0, 0, 10] (make 120) [1, 2, 3, 4, 5]
      [0, 0] [] 2 rfl (by decide) rfl rfl rfl rfl rfl (by decide)).1⟩

/-- Wrong marker served in full: when the reader holds a complete common header (0xFF, any payload type, sequence
number and timestamp) followed by 4 bytes that differ from `[0x24, 0x35, 0x68, 0x79]`,
`FetchFrame` returns the wrong-payload-marker error and no frame; the reader stands right
after those 4 bytes and the stored payload-header fields are untouched, so the size,
padding-size, reserved and body fields have not been read. -/
theorem FetchFrame_wrong_payload_marker (lv : LiveView) (b : Reader) (ty : Byte)
    (seq ts m rest : List Byte) (hr : lv.reader = some b) (hseq : seq.length = 2)
    (hts : ts.length = 4) (hm : m.length = 4) (hne : m ≠ payloadHeaderStartCode)
    (hb : b.holds ([commonHeaderStartByte] ++ ([ty] ++ (seq ++ (ts ++ (m ++ rest)))))) :
    FetchFrame lv = Outcome.returned
      (Except.error (FetchError.payloadHeader Error.wrongPayloadHeaderStartBytesError),
        { lv with
          commonHeader := ⟨ty, Uint16 seq, Uint32 ts⟩
          reader := some { b.settled with buffered := rest } }) := by
  have hw := with_buffered_of_holds b _ rest hb
  have h1 := readCommonHeader_holds lv b _ (by simp) hb
  rw [readCommonHeader_mk lv ty seq ts _ _ _ hseq hts] at h1
  have h2 := readPayloadHeader_wrongMarker { lv with commonHeader := ⟨ty, Uint16 seq, Uint32 ts⟩ }
    m rest b.settled.size b.settled.rd hm hne
  rw [FetchFrame_payloadErr lv _ _ b _ _ _ hr h1 h2, ← hw]

theorem FetchFrame_wrong_payload_marker_witness :
    (NewReader ⟨[⟨[0xFF, 0x01, 0, 1, 0, 0, 0, 10, 0x24, 0x35, 0x68, 0x78, 7], none⟩]⟩).holds
        ([commonHeaderStartByte] ++ ([0x01] ++ ([0, 1] ++ ([0, 0, 0, 10] ++
          ([0x24, 0x35, 0x68, 0x78] ++ [7]))))) ∧
      fetched (FetchFrame
          (connected none [⟨[0xFF, 0x01, 0, 1, 0, 0, 0, 10, 0x24, 0x35, 0x68, 0x78, 7], none⟩]))
        = some (Except.error
            (FetchError.payloadHeader Error.wrongPayloadHeaderStartBytesError)) :=
  ⟨by decide,
    congrArg fetched (FetchFrame_wrong_payload_marker
      (connected none [⟨[0xFF, 0x01, 0, 1, 0, 0, 0, 10, 0x24, 0x35, 0x68, 0x78, 7], none⟩])
      (NewReader ⟨[⟨[0xFF, 0x01, 0, 1, 0, 0, 0, 10, 0x24, 0x35, 0x68, 0x78, 7], none⟩]⟩)
      0x01 [0, 1] [0, 0, 0, 10] [0x24, 0x35, 0x68, 0x78] [7] rfl rfl rfl rfl (by decide)
      (by decide))⟩


/-- Consumption when served in full: when the reader holds a well-formed image unit of declared size `n` and padding
size `p` followed by further bytes `rest`, the unit is `8 + 128 + n + p` bytes long and
`FetchFrame` consumes exactly the unit: it returns the body and leaves the reader at the
first byte of `rest`.  Hence, when `rest` starts with a second well-formed image unit, the
next `FetchFrame` returns the second body and leaves the reader behind that unit. -/
theorem FetchFrame_consumes_image_unit (lv : LiveView) (b : Reader) (n : Nat)
    (seq ts reserved body padding rest : List Byte) (p : Byte)
    (hr : lv.reader = some b) (hn : n < 2 ^ 24) (hseq : seq.length = 2)
    (hts : ts.length = 4) (hres : reserved.length = 120) (hbody : body.length = n)
    (hpad : padding.length = p.val)
    (hb : b.holds (streamUnit 0x01 seq ts (size24 n) p reserved body padding ++ rest)) :
    (streamUnit 0x01 seq ts (size24 n) p reserved body padding).length
        = 8 + 128 + n + p.val ∧
      fetched (FetchFrame lv) = some (Except.ok (some body)) ∧
      (stateAfter lv (FetchFrame lv)).reader = some { b.settled with buffered := rest } ∧
      ∀ (n2 : Nat) (seq2 ts2 reserved2 body2 padding2 rest2 : List Byte) (p2 : Byte),
        n2 < 2 ^ 24 → seq2.length = 2 → ts2.length = 4 → reserved2.length = 120 →
        body2.length = n2 → padding2.length = p2.val →
        rest = streamUnit 0x01 seq2 ts2 (size24 n2) p2 reserved2 body2 padding2 ++ rest2 →
        fetched (FetchFrame (stateAfter lv (FetchFrame lv))) = some (Except.ok (some body2)) ∧
          (stateAfter (stateAfter lv (FetchFrame lv))
              (FetchFrame (stateAfter lv (FetchFrame lv)))).reader
            = some { b.settled with buffered := rest2 } := by
  have hu := Uint32_size24 n hn
  have h := FetchFrame_image_unit lv b seq ts (size24 n) p reserved body padding rest hr
    hseq hts rfl hres (by rw [hu, hbody]) hpad hb
  refine ⟨?_, ?_, ?_, ?_⟩
  · rw [streamUnit_length 0x01 seq ts (size24 n) p reserved body padding hseq hts rfl hres,
      hbody, hpad]
  · rw [h]; rfl
  · rw [h]; rfl
  · intro n2 seq2 ts2 reserved2 body2 padding2 rest2 p2 hn2 hseq2 hts2 hres2 hbody2 hpad2 hrest
    have hu2 := Uint32_size24 n2 hn2
    have hne : rest ≠ [] := by
      rw [hrest]
      simp [streamUnit]
    have hr1 : (stateAfter lv (FetchFrame lv)).reader
        = some { b.settled with buffered := rest } := by
      rw [h]; rfl
    have hs1 := settled_buffered b.settled rest hne
    have hb1 : ({ b.settled with buffered := rest } : Reader).holds
        (streamUnit 0x01 seq2 ts2 (size24 n2) p2 reserved2 body2 padding2 ++ rest2) := by
      rw [← hrest]
      exact holds_buffered b.settled rest hb.2.2.2 hne
    have h2 := FetchFrame_image_unit (stateAfter lv (FetchFrame lv)) _ seq2 ts2 (size24 n2)
      p2 reserved2 body2 padding2 rest2 hr1 hseq2 hts2 rfl hres2 (by rw [hu2, hbody2]) hpad2 hb1
    rw [h2, hs1]
    exact ⟨rfl, rfl⟩

theorem FetchFrame_consumes_image_unit_witness :
    (NewReader ⟨[⟨exImage ++ exImage2, none⟩]⟩).holds (exImage ++ exImage2) ∧
      fetched (FetchFrame (connected none [⟨exImage ++ exImage2, none⟩]))
        = some (Except.ok (some [1, 2, 3, 4, 5])) ∧
      fetched (FetchFrame (stateAfter (connected none [⟨exImage ++ exImage2, none⟩])
          (FetchFrame (connected none [⟨exImage ++ exImage2, none⟩]))))
        = some (Except.ok (some [7, 8, 9])) :=
  ⟨by decide,
    (FetchFrame_consumes_image_unit (connected none [⟨exImage ++ exImage2, none⟩])
      (NewReader ⟨[⟨exImage ++ exImage2, none⟩]⟩) 5 [0, 1] [0, 0, 0, 10] (make 120)
      [1, 2, 3, 4, 5] [0, 0] exImage2 2 rfl (by decide) rfl rfl rfl rfl rfl (by decide)).2.1,
    ((FetchFrame_consumes_image_unit (connected none [⟨exImage ++ exImage2, none⟩])
      (NewReader ⟨[⟨exImage ++ exImage2, none⟩]⟩) 5 [0, 1] [0, 0, 0, 10] (make 120)
      [1, 2, 3, 4, 5] [0, 0] exImage2 2 rfl (by decide) rfl rfl rfl rfl rfl
      (by decide)).2.2.2 3 [0, 2] [0, 0, 0, 20] (make 120) [7, 8, 9] [] [] 0
      (by decide) rfl rfl rfl rfl rfl rfl).1⟩

/-! ## Reads that are served in part -/

theorem Read_all (x : Byte) (xs : List Byte) (sz : Nat) (e : Option Error) (rd : Source)
    (L : Nat) (hL : (x :: xs).length ≤ L) :
    Reader.Read ⟨x :: xs, sz, e, rd⟩ L
      = ⟨(x :: xs) ++ make (L - (x :: xs).length), (x :: xs).length, none,
          ⟨[], sz, e, rd⟩⟩ := by
  have h0 : L ≠ 0 := by
    simp only [List.length_cons] at hL
    omega
  have ht : List.take L (x :: xs) = x :: xs := List.take_of_length_le hL
  have hd : List.drop L (x :: xs) = [] := List.drop_eq_nil_of_le hL
  have hm : min L (x :: xs).length = (x :: xs).length := Nat.min_eq_right hL
  simp only [Reader.Read, h0, if_false, copyInto, ht, hd, hm]

theorem readPayload_image_short (lv : LiveView) (x : Byte) (xs : List Byte) (sz : Nat)
    (e : Option Error) (rd : Source) (hty : lv.commonHeader.PayloadType = 0x01)
    (hlen : (x :: xs).length ≤ lv.payloadHeader.payloadDataSize)
    (hp : lv.payloadHeader.paddingSize = 0) :
    readPayload lv ⟨x :: xs, sz, e, rd⟩
      = (none,
          lv.setJpegData
            ((x :: xs) ++ make (lv.payloadHeader.payloadDataSize - (x :: xs).length)),
          ⟨[], sz, e, rd⟩) := by
  unfold readPayload
  rw [if_pos hty, Read_all x xs sz e rd _ hlen, andThen_ok]
  unfold readPadding
  rw [if_neg (by simpa [LiveView.setJpegData] using hp)]

theorem streamUnit_take (seq ts size reserved body : List Byte) (p : Byte)
    (hseq : seq.length = 2) (hts : ts.length = 4) (hsize : size.length = 3)
    (hres : reserved.length = 120) :
    (streamUnit 0x01 seq ts size p reserved body []).take 4096
      = [commonHeaderStartByte] ++ ([0x01] ++ (seq ++ (ts ++ (payloadHeaderStartCode ++
          (size ++ ([p] ++ (reserved ++ body.take 3960))))))) := by
  have h : streamUnit 0x01 seq ts size p reserved body []
      = ([commonHeaderStartByte] ++ ([0x01] ++ (seq ++ (ts ++ (payloadHeaderStartCode ++
          (size ++ ([p] ++ reserved))))))) ++ body := by
    simp [streamUnit]
  have hl : ([commonHeaderStartByte] ++ ([(0x01 : Byte)] ++ (seq ++ (ts ++
      (payloadHeaderStartCode ++ (size ++ ([p] ++ reserved))))))).length = 136 := by
    simp [payloadHeaderStartCode, hseq, hts, hsize, hres]
  rw [h, List.take_append_eq_append_take, hl, List.take_of_length_le (by rw [hl]; decide)]
  simp


/-! ## The claims -/

/-- C1 fails on the code: a client as `Connect` leaves it (a fresh `bufio.Reader` with
its 4096-byte buffer) receives one well-formed image unit of declared size `n`, without
padding, in a single delivery.  Whenever `3960 < n < 2^24` the body read finds only 3960
body bytes buffered, and `FetchFrame` returns no error and a frame of `n` bytes of which
only the first 3960 are body bytes: the rest, from index 3960 on, are the zeros of the
fresh slice. -/
theorem FetchFrame_large_frame_cut (lv : LiveView) (n : Nat)
    (seq ts reserved body : List Byte)
    (hr : lv.reader
      = some (NewReader ⟨[⟨streamUnit 0x01 seq ts (size24 n) 0 reserved body [], none⟩]⟩))
    (hn : n < 2 ^ 24) (hbig : 3960 < n) (hseq : seq.length = 2) (hts : ts.length = 4)
    (hres : reserved.length = 120) (hbody : body.length = n) :
    fetched (FetchFrame lv)
        = some (Except.ok (some (body.take 3960 ++ make (n - 3960)))) ∧
      (body.take 3960 ++ make (n - 3960))[3960]? = some 0 := by
  have hu := Uint32_size24 n hn
  have hlen := streamUnit_length 0x01 seq ts (size24 n) 0 reserved body [] hseq hts rfl hres
  have hgt : ¬ (streamUnit 0x01 seq ts (size24 n) 0 reserved body []).length ≤ 4096 := by
    rw [hlen, hbody]
    simp only [List.length_nil]
    omega
  have htl : (body.take 3960).length = 3960 := by
    rw [List.length_take, hbody]
    omega
  have hb : (NewReader ⟨[⟨streamUnit 0x01 seq ts (size24 n) 0 reserved body [], none⟩]⟩).holds
      ((streamUnit 0x01 seq ts (size24 n) 0 reserved body []).take 4096) := by
    unfold Reader.holds
    refine ⟨rfl, fun _ => by simp [NewReader, defaultBufSize], ?_, ?_⟩
    · simp [Reader.settled, NewReader, Reader.fill, Source.Read, defaultBufSize, hgt]
    · simp [Reader.settled, NewReader, Reader.fill, Source.Read, defaultBufSize, hgt]
  rw [streamUnit_take seq ts (size24 n) reserved body 0 hseq hts rfl hres] at hb
  obtain ⟨h1, h2⟩ := headers_holds lv _ 0x01 seq ts (size24 n) 0 reserved (body.take 3960)
    hseq hts rfl hres hb
  constructor
  · cases hbt : body.take 3960 with
    | nil => rw [hbt] at htl; cases htl
    | cons x xs =>
      rw [hbt] at h1 h2 htl
      rw [readPayload_image_short _ x xs _ _ _ rfl
        (by show (x :: xs).length ≤ Uint32 ((0 : Byte) :: size24 n); rw [hu, htl]; omega) rfl] at h2
      rw [FetchFrame_ok lv _ _ _ _ _ hr h1 h2]
      show some (Except.ok (some ((x :: xs)
        ++ make (Uint32 ((0 : Byte) :: size24 n) - (x :: xs).length)))) = _
      rw [hu, htl]
  · rw [List.getElem?_append_right (by rw [htl]), htl]
    have : 0 < n - 3960 := by omega
    simp [make, this]

theorem FetchFrame_large_frame_cut_witness :
    3960 < 5000 ∧
      fetched (FetchFrame (connected none [⟨exBig, none⟩]))
        = some (Except.ok (some
            ((List.replicate 5000 (0x01 : Byte)).take 3960 ++ make (5000 - 3960)))) :=
  ⟨by decide,
    (FetchFrame_large_frame_cut (connected none [⟨exBig, none⟩]) 5000 [0, 6] [0, 0, 0, 60]
      (make 120) (List.replicate 5000 0x01) rfl (by decide) (by decide) rfl rfl rfl
      (List.length_replicate 5000 _)).1⟩

/-- C5: when the byte the reader holds first is not 0xFF, `FetchFrame` returns the
wrong-start-byte error and no frame; exactly that one byte is taken from the reader, and
the stored common-header fields, payload-header fields and frame bytes stay as they
were. -/
theorem FetchFrame_wrong_start_byte (lv : LiveView) (b : Reader) (x : Byte)
    (rest : List Byte) (hr : lv.reader = some b) (hx : x ≠ 0xFF)
    (hb : b.holds (x :: rest)) :
    FetchFrame lv = Outcome.returned
      (Except.error (FetchError.commonHeader Error.wrongCommonHeaderStartBytesError),
        { lv with reader := some { b.settled with buffered := rest } }) := by
  have hw := with_buffered_of_holds b _ rest hb
  have h1 := readCommonHeader_holds lv b _ (List.cons_ne_nil x rest) hb
  rw [show x :: rest = [x] ++ rest from rfl, readCommonHeader_wrongStart lv x rest _ _ hx] at h1
  rw [FetchFrame_commonErr lv _ b _ _ hr h1, ← hw]

theorem FetchFrame_wrong_start_byte_witness :
    (NewReader ⟨[⟨[0x00, 0xFF, 0x01], none⟩]⟩).holds [0x00, 0xFF, 0x01] ∧
      FetchFrame (connected (some [9]) [⟨[0x00, 0xFF, 0x01], none⟩]) = Outcome.returned
        (Except.error (FetchError.commonHeader Error.wrongCommonHeaderStartBytesError),
          { connected (some [9]) [⟨[0x00, 0xFF, 0x01], none⟩] with
            reader := some { (NewReader ⟨[⟨[0x00, 0xFF, 0x01], none⟩]⟩).settled with
              buffered := [0xFF, 0x01] } }) :=
  ⟨by decide,
    FetchFrame_wrong_start_byte (connected (some [9]) [⟨[0x00, 0xFF, 0x01], none⟩])
      (NewReader ⟨[⟨[0x00, 0xFF, 0x01], none⟩]⟩) 0x00 [0xFF, 0x01] rfl (by decide)
      (by decide)⟩

/-- C6 fails on the code: the stream `exShifted` starts with a complete, correct common
header followed by the 4 bytes `35 68 79 00`, which differ from the payload start code.
When its first 3 bytes arrive in one delivery and the rest in the next, the 2-byte
sequence-number read is handed 1 byte, every later field is read one byte late, the
bytes `24 35 68 79` pass the marker test, and `FetchFrame` returns the frame `[AA, BB]`
with no error.  (Delivered in one piece the same stream gives the marker error.) -/
theorem FetchFrame_split_header_passes_wrong_marker :
    exShifted.take 8 = [0xFF, 0x01, 0x00, 0x01, 0x00, 0x00, 0x00, 0x24] ∧
      (exShifted.drop 8).take 4 = [0x35, 0x68, 0x79, 0x00] ∧
      (exShifted.drop 8).take 4 ≠ payloadHeaderStartCode ∧
      fetched (FetchFrame
          (connected none [⟨exShifted.take 3, none⟩, ⟨exShifted.drop 3, none⟩]))
        = some (Except.ok (some [0xAA, 0xBB])) ∧
      fetched (FetchFrame (connected none [⟨exShifted, none⟩]))
        = some (Except.error
            (FetchError.payloadHeader Error.wrongPayloadHeaderStartBytesError)) := by
  decide

/-- C7 fails on the code: the stream is the image unit `exImage` (size 5, body
`[1,2,3,4,5]`, padding size 2; 143 bytes) followed by the image unit `exImage2`, and its
first 139 bytes arrive in one delivery, the rest in the next.  The first `FetchFrame`
succeeds, returns `[1,2,3,0,0]` and leaves the reader at byte 141 of the stream, two
bytes before the second unit; the second `FetchFrame` then fails on the start byte
instead of returning the second body. -/
theorem FetchFrame_split_body_loses_position :
    exImage.length = 8 + 128 + 5 + 2 ∧
      fetched (FetchFrame (connected none
          [⟨(exImage ++ exImage2).take 139, none⟩, ⟨(exImage ++ exImage2).drop 139, none⟩]))
        = some (Except.ok (some [1, 2, 3, 0, 0])) ∧
      (stateAfter (connected none
          [⟨(exImage ++ exImage2).take 139, none⟩, ⟨(exImage ++ exImage2).drop 139, none⟩])
        (FetchFrame (connected none
          [⟨(exImage ++ exImage2).take 139, none⟩,
            ⟨(exImage ++ exImage2).drop 139, none⟩]))).reader
        = some ⟨(exImage ++ exImage2).drop 141, 4096, none, ⟨[]⟩⟩ ∧
      fetched (FetchFrame (stateAfter (connected none
          [⟨(exImage ++ exImage2).take 139, none⟩, ⟨(exImage ++ exImage2).drop 139, none⟩])
        (FetchFrame (connected none
          [⟨(exImage ++ exImage2).take 139, none⟩,
            ⟨(exImage ++ exImage2).drop 139, none⟩]))))
        = some (Except.error
            (FetchError.commonHeader Error.wrongCommonHeaderStartBytesError)) := by
  decide

/-- C3, as stated, fails: on a well-formed unit of payload type 0x03 `FetchFrame` returns
no error. -/
theorem FetchFrame_unknown_type_no_error :
    fetched (FetchFrame (connected none [⟨exUnknown, none⟩])) = some (Except.ok none) := by
  decide

/-- C3, amended: for a unit whose headers are well formed and whose payload type is
neither 0x01 nor 0x02, `FetchFrame` reports no error; after the 120 reserved bytes it
consumes the declared padding and nothing else, and the stored frame bytes stay as they
were. -/
theorem FetchFrame_unknown_type_skipped (lv : LiveView) (b : Reader) (ty : Byte)
    (seq ts size : List Byte) (p : Byte) (reserved padding rest : List Byte)
    (hr : lv.reader = some b) (h01 : ty ≠ 0x01) (h02 : ty ≠ 0x02)
    (hseq : seq.length = 2) (hts : ts.length = 4) (hsize : size.length = 3)
    (hres : reserved.length = 120) (hpad : padding.length = p.val)
    (hb : b.holds (streamUnit ty seq ts size p reserved [] padding ++ rest)) :
    (∃ r, fetched (FetchFrame lv) = some (Except.ok r)) ∧
      (stateAfter lv (FetchFrame lv)).reader = some { b.settled with buffered := rest } ∧
      (stateAfter lv (FetchFrame lv)).payloadHeader.JpegData = lv.payloadHeader.JpegData := by
  rw [FetchFrame_other_unit lv b ty seq ts size p reserved padding rest hr h01 h02 hseq hts
    hsize hres hpad hb]
  exact ⟨⟨_, rfl⟩, rfl, rfl⟩

theorem FetchFrame_unknown_type_skipped_witness :
    (NewReader ⟨[⟨exUnknown ++ exImage, none⟩]⟩).holds (exUnknown ++ exImage) ∧
      (stateAfter (connected (some [9]) [⟨exUnknown ++ exImage, none⟩])
          (FetchFrame (connected (some [9]) [⟨exUnknown ++ exImage, none⟩]))).reader
        = some { (NewReader ⟨[⟨exUnknown ++ exImage, none⟩]⟩).settled with
            buffered := exImage } :=
  ⟨by decide,
    (FetchFrame_unknown_type_skipped (connected (some [9]) [⟨exUnknown ++ exImage, none⟩])
      (NewReader ⟨[⟨exUnknown ++ exImage, none⟩]⟩) 0x03 [0, 4] [0, 0, 0, 40] [0, 0, 0] 1
      (make 120) [0] exImage rfl (by decide) (by decide) rfl rfl rfl rfl rfl
      (by decide)).2.1⟩

/-- C2 fails on the code: a client decodes the image unit `exImage` and then the
frame-info unit `exInfo` (payload type 0x02); the second `FetchFrame` reports no error and
hands out the five bytes of the earlier image frame again. -/
theorem FetchFrame_info_returns_earlier_frame :
    fetched (FetchFrame (connected none [⟨exImage ++ exInfo, none⟩]))
        = some (Except.ok (some [1, 2, 3, 4, 5])) ∧
      fetched (FetchFrame (stateAfter (connected none [⟨exImage ++ exInfo, none⟩])
          (FetchFrame (connected none [⟨exImage ++ exInfo, none⟩]))))
        = some (Except.ok (some [1, 2, 3, 4, 5])) := by
  decide

/-- C4 fails on the code: an image unit declares size 5.  When the stream ends after 3
body bytes, and likewise when the 5 body bytes arrive in two deliveries of 3 and 2 bytes,
the body read is handed 3 bytes only; `FetchFrame` reports no error and returns the
5-byte buffer of which only the first 3 bytes were filled. -/
theorem FetchFrame_short_read_returns_unfilled_frame :
    fetched (FetchFrame (connected none [⟨exTruncated, none⟩]))
        = some (Except.ok (some [1, 2, 3, 0, 0])) ∧
      fetched (FetchFrame (connected none [⟨exTruncated, none⟩, ⟨[4, 5], none⟩]))
        = some (Except.ok (some [1, 2, 3, 0, 0])) := by
  decide

/-- C8 fails on the code: in the body that `postReq` builds for the method `startRecMode`
the method name is pasted in bare.  Right after the member name `method` and its colon
the body has the letter `s`, where the body the protocol describes has a double quote,
so the method member is not a JSON string.  (The two requests of `Start` do go to the
base URL without its trailing slashes, followed by `/sony/camera`.) -/
theorem postReq_method_not_quoted :
    postReqBody "startRecMode"
        = "\x7b\"method\":startRecMode, \"params\": [], \"id\": 1, \"version\": \"1.0\"\x7d" ∧
      (postReqBody "startRecMode").data.get? 10 = some 's' ∧
      (specBody "startRecMode").data.get? 10 = some (Char.ofNat 34) ∧
      postReqBody "startRecMode" ≠ specBody "startRecMode" ∧
      (Start "http://192.168.122.1:8080//" ⟨[], [], []⟩).2.sent
        = [⟨"POST", "http://192.168.122.1:8080/sony/camera", "application/json",
              postReqBody "startRecMode"⟩,
            ⟨"POST", "http://192.168.122.1:8080/sony/camera", "application/json",
              postReqBody "startLiveview"⟩] := by
  decide

/-- C9 fails on the code: `exClean` and `exUsed` differ only in what earlier decoding
left behind.  `Connect` installs the same fresh byte source (delivering the frame-info
unit `exInfo`) in both, yet `FetchFrame` returns no bytes in the first and the five bytes
of the frame decoded on the earlier connection in the second. -/
theorem FetchFrame_after_Connect_leaks_frame :
    (Connect exClean (exNet [⟨exInfo, none⟩])).2.1.reader
        = (Connect exUsed (exNet [⟨exInfo, none⟩])).2.1.reader ∧
      fetched (FetchFrame (Connect exClean (exNet [⟨exInfo, none⟩])).2.1)
        = some (Except.ok none) ∧
      fetched (FetchFrame (Connect exUsed (exNet [⟨exInfo, none⟩])).2.1)
        = some (Except.ok (some [1, 2, 3, 4, 5])) := by
  decide

/-- C10 fails on the code: on the client a successful `Start` returns, on which `Connect`
has not been called, `Stop` dereferences the missing response and panics, whatever the
outcome of the `stopLiveview` command. -/
theorem Stop_after_Start_panics (liveviewURL : String) (w w1 : Net) (lv : LiveView)
    (h : Start liveviewURL w = ((lv, none), w1)) : Stop lv w1 = Outcome.panicked := by
  have hresp : lv.response = none := by
    unfold Start at h
    dsimp only at h
    split at h
    · cases h
    · split at h
      · cases h
      · cases h
        rfl
  simp [Stop, CloseResponse, hresp]

theorem Stop_after_Start_panics_witness :
    Start "http://192.168.122.1:8080" ⟨[], [], []⟩
        = ((exClean, none), (Start "http://192.168.122.1:8080" ⟨[], [], []⟩).2) ∧
      Stop exClean (Start "http://192.168.122.1:8080" ⟨[], [], []⟩).2 = Outcome.panicked :=
  ⟨rfl, Stop_after_Start_panics "http://192.168.122.1:8080" ⟨[], [], []⟩ _ exClean rfl⟩

end liveview
